import Mathlib

/-!
Shallow embedding of the sequence-coordination and submission-retry engine of
jcc-jingtum-lib (src/index.ts).  The RPC transport (fetchSequence and
submitTransaction from src/rpc) is modelled by a script: a stream of fetch
results and a stream of node responses, consumed in call order.  The wallet,
serializer and transaction-construction collaborators, which the design treats
as external pure data shaping, are modelled as opaque pure functions.  The
module-global swtcSequence store and the event history (calls performed) are
threaded through every operation as an explicit state record.
-/

namespace JccJingtum

/-- The tx_json object inside a node response; the hash field may be absent. -/
structure TxJson where
  hash : Option String
deriving Repr, DecidableEq

/-- The result object of a submitTransaction response; fields may be absent. -/
structure RpcResult where
  engine_result : Option String
  tx_json : Option TxJson
deriving Repr, DecidableEq

/-- A node response object, loose JSON shape. -/
structure RpcResponse where
  result : Option RpcResult
deriving Repr, DecidableEq

/-- A raw submitTransaction return value; none models null or undefined. -/
abbrev NodeResponse := Option RpcResponse

/-- The optional chain res?.result?.engine_result (src/index.ts line 559). -/
def engineResult (res : NodeResponse) : Option String :=
  (res.bind fun r => r.result).bind fun ro => ro.engine_result

/-- The unguarded access res.result.tx_json.hash (src/index.ts line 561).
The .error case models a JavaScript TypeError (property access on undefined);
.ok carries the field value, none when the hash field itself is absent. -/
def txJsonHash (res : NodeResponse) : Except Unit (Option String) :=
  match res with
  | none => .error ()
  | some r =>
    match r.result with
    | none => .error ()
    | some ro =>
      match ro.tx_json with
      | none => .error ()
      | some tj => .ok tj.hash

/-- A transaction object.  Account, Fee, Sequence, SigningPubKey and
TxnSignature mirror the fields touched by src/index.ts; the operation-specific
business fields produced by the external serializers are collapsed into the
opaque payload string. -/
structure Tx where
  Account : String
  payload : String
  Fee : Nat
  Sequence : Option Nat
  SigningPubKey : Option String
  TxnSignature : Option String
deriving Repr, DecidableEq

/-- Default transaction value, used only as a list-access fallback. -/
def txDefault : Tx :=
  { Account := "", payload := "", Fee := 0, Sequence := none,
    SigningPubKey := none, TxnSignature := none }

/-- Opaque model of wallet.getPublicKey() (external wallet collaborator). -/
def walletPublicKey (secret : String) : String := "pub-" ++ secret

/-- Opaque model of the serializer hash blob.hash(HASHPREFIX.transactionSig)
(external codec collaborator); it depends on the signed fields. -/
def txHashOf (tx : Tx) : String :=
  "hash-" ++ tx.Account ++ "-" ++ toString (tx.Sequence.getD 0) ++ "-" ++ tx.payload

/-- Opaque model of wallet.signTx(hash) (external wallet collaborator). -/
def walletSignTx (secret h : String) : String := "sig-" ++ secret ++ "-" ++ h

/-- Return value of Wallet.sign; the wire blob is modelled as the signed
transaction record itself (the serializer being an injective opaque codec). -/
structure SignResult where
  hash : String
  blob : Tx
deriving Repr, DecidableEq

/-- Wallet.sign (src/index.ts lines 74-92): copy the transaction, set the
signing public key, hash, sign, and serialize the signed copy to a blob. -/
def Wallet.sign (tx : Tx) (secret : String) : SignResult :=
  let copyTx := { tx with SigningPubKey := some (walletPublicKey secret) }
  let h := txHashOf copyTx
  let signedTx := { copyTx with TxnSignature := some (walletSignTx secret h) }
  { hash := h, blob := signedTx }

/-- A script for the RPC boundary: the i-th fetchSequence call returns
fetchVals i, the i-th submitTransaction call returns responses i. -/
structure Script where
  fetchVals : Nat → Nat
  responses : Nat → NodeResponse

/-- Threaded state: the module-global swtcSequence cache plus the observable
call history (fetch and submission counts and logs) and the transaction object
owned by the caller (JavaScript objects are mutable, so the caller object is
part of the mutable state; submit never writes it because it copies first). -/
structure LoopSt where
  cache : String → Option Nat
  fetchIdx : Nat
  respIdx : Nat
  getCount : Nat
  fetchLog : List (String × String)
  subLog : List (String × Tx)
  seqLog : List Nat
  callerTx : Tx

/-- Fresh state for a run: empty cache, no calls performed yet. -/
def initSt (tx : Tx) : LoopSt :=
  { cache := fun _ => none, fetchIdx := 0, respIdx := 0, getCount := 0,
    fetchLog := [], subLog := [], seqLog := [], callerTx := tx }

/-- Modelled from the spec: swtcSequence.get (the Sequence Resolver of
src/sequence.ts, which is not under src/).  Per the design, it returns the
cached value for the address if present; otherwise it calls the fetch
collaborator fetchSequence(node, address), caches the result and returns it.
getCount counts resolver invocations, fetchLog records each actual fetch. -/
def seqGet (script : Script) (address node : String) (st : LoopSt) : Nat × LoopSt :=
  match st.cache address with
  | some v => (v, { st with getCount := st.getCount + 1 })
  | none =>
    let v := script.fetchVals st.fetchIdx
    (v, { st with
          cache := fun x => if x = address then some v else st.cache x,
          fetchIdx := st.fetchIdx + 1,
          getCount := st.getCount + 1,
          fetchLog := st.fetchLog ++ [(node, address)] })

/-- Modelled from the spec: swtcSequence.reset (src/sequence.ts, not under
src/): clear the cached sequence for the address. -/
def seqReset (address : String) (st : LoopSt) : LoopSt :=
  { st with cache := fun x => if x = address then none else st.cache x }

/-- Modelled from the spec: swtcSequence.rise (src/sequence.ts, not under
src/): advance the cached sequence for the address by one. -/
def seqRise (address : String) (st : LoopSt) : LoopSt :=
  { st with cache := fun x => if x = address then (st.cache x).map (· + 1) else st.cache x }

/-- The sequence number the resolver would produce for the address in state
st: the cached value if present, otherwise the next scripted fetch result. -/
def resolvedSeq (script : Script) (st : LoopSt) (address : String) : Nat :=
  match st.cache address with
  | some v => v
  | none => script.fetchVals st.fetchIdx

/-- State after the resolve-copy-stamp-sign-submit part of one loop iteration
(src/index.ts lines 554-558): resolve a sequence through the resolver, stamp
it into a fresh copy of the caller transaction, sign the copy, and submit
the signed blob to the node, recording the submission. -/
def stAfterSubmit (script : Script) (node secret : String) (st : LoopSt) : LoopSt :=
  let sq := seqGet script st.callerTx.Account node st
  let copyTx := { st.callerTx with Sequence := some sq.1 }
  let st1 := sq.2
  { st1 with
    respIdx := st1.respIdx + 1,
    subLog := st1.subLog ++ [(node, (Wallet.sign copyTx secret).blob)],
    seqLog := st1.seqLog ++ [sq.1] }

/-- Thrown errors: node carries the response serialized into the Error message
by JSON.stringify (src/index.ts lines 564 and 569); typeErr models a raw
JavaScript TypeError escaping from a malformed success response. -/
inductive SubmitErr where
  | node (res : NodeResponse)
  | typeErr
deriving Repr, DecidableEq

/-- Result of a submit call: resolve with a hash, reject with an error, or
fuelOut, the model artifact for a loop still running after the given fuel. -/
inductive SubmitOutcome where
  | ok (hash : String)
  | err (e : SubmitErr)
  | fuelOut
deriving Repr, DecidableEq

/-- Result of one iteration of the while loop: done ends the call, loop
continues with the updated retry counter and state. -/
inductive IterRes where
  | done (o : SubmitOutcome) (st : LoopSt)
  | loop (retry : Int) (st : LoopSt)

/-- The state carried by an iteration result. -/
def IterRes.st : IterRes → LoopSt
  | .done _ s => s
  | .loop _ s => s

/-- One iteration of the while loop body of Transaction.submit (src/index.ts
lines 552-572): copy the caller transaction, resolve and stamp a sequence,
sign, submit, then classify the engine result.  tesSUCCESS assigns hash (the
loop exits only if the assigned hash is truthy: present and nonempty);
terPRE_SEQ and tefPAST_SEQ decrement retry, clear the cached sequence for
tx.Account and either throw (budget exhausted) or continue; every other
engine result throws at once carrying the response. -/
def submitIter (script : Script) (node secret : String) (retry : Int) (st : LoopSt) : IterRes :=
  let res := script.responses st.respIdx
  let st2 := stAfterSubmit script node secret st
  if engineResult res = some "tesSUCCESS" then
    match txJsonHash res with
    | .error _ => .done (.err .typeErr) st2
    | .ok none => .loop retry st2
    | .ok (some h) => if h = "" then .loop retry st2 else .done (.ok h) st2
  else if engineResult res ≠ some "terPRE_SEQ" ∧ engineResult res ≠ some "tefPAST_SEQ" then
    .done (.err (.node res)) st2
  else
    let st3 := seqReset st.callerTx.Account st2
    if retry - 1 < 0 then .done (.err (.node res)) st3
    else .loop (retry - 1) st3

/-- The while loop of Transaction.submit, fuelled: fuel bounds how many
iterations the model will unfold (the source loop has no such bound; fuelOut
reports that the loop was still running). -/
def submitLoop (script : Script) (node secret : String) :
    Nat → Int → LoopSt → SubmitOutcome × LoopSt
  | 0, _, st => (.fuelOut, st)
  | fuel + 1, retry, st =>
    match submitIter script node secret retry st with
    | .done o st1 => (o, st1)
    | .loop retry2 st1 => submitLoop script node secret fuel retry2 st1

/-- Transaction.getNode (src/index.ts lines 129-132): pick
nodes[floor(random * nodes.length)]; the random draw is modelled by the
index rand supplied by the environment. -/
def Transaction.getNode (nodes : List String) (rand : Nat) : String :=
  nodes.getD rand ""

/-- Transaction.submit (src/index.ts lines 548-574): choose a node once, then
run the retry loop with the retry budget of the instance; the caller
transaction is installed into the mutable state before the loop. -/
def Transaction.submit (script : Script) (nodes : List String) (rand : Nat)
    (retry : Int) (fuel : Nat) (secret : String) (tx : Tx) (st : LoopSt) :
    SubmitOutcome × LoopSt :=
  let node := Transaction.getNode nodes rand
  submitLoop script node secret fuel retry { st with callerTx := tx }

/-- Per-instance configuration of a Transaction facade: the scripted RPC
boundary, node list, the random draw, the retry budget from the constructor,
the model fuel, and the wallet-derived currency, fee and default issuer. -/
structure TxCfg where
  script : Script
  nodes : List String
  rand : Nat
  retry : Int
  fuel : Nat
  currency : String
  fee : Nat
  issuer : String

/-- The pattern issuer || this.wallet.getIssuer(): an absent or empty issuer
argument falls back to the wallet default. -/
def issuerOrDefault (issuer : Option String) (dflt : String) : String :=
  match issuer with
  | some s => if s = "" then dflt else s
  | none => dflt

/-- Modelled from the spec: serializeCreateOrder (src/tx.ts is not under
src/); transaction construction is an external pure data-shaping collaborator
producing the typed payload for the acting account. -/
def serializeCreateOrder (address amount base counter sum type platform currency : String)
    (fee : Nat) (issuer : String) : Tx :=
  { Account := address,
    payload := String.intercalate "|"
      ["CreateOrder", amount, base, counter, sum, type, platform, currency, issuer],
    Fee := fee, Sequence := none, SigningPubKey := none, TxnSignature := none }

/-- Modelled from the spec: serializeCancelOrder (src/tx.ts, not under src/). -/
def serializeCancelOrder (address : String) (offerSequence : Nat) (fee : Nat) : Tx :=
  { Account := address,
    payload := String.intercalate "|" ["CancelOrder", toString offerSequence],
    Fee := fee, Sequence := none, SigningPubKey := none, TxnSignature := none }

/-- Modelled from the spec: serializePayment (src/tx.ts, not under src/). -/
def serializePayment (address amount dest token memo : String) (fee : Nat)
    (currency issuer : String) : Tx :=
  { Account := address,
    payload := String.intercalate "|" ["Payment", amount, dest, token, memo, currency, issuer],
    Fee := fee, Sequence := none, SigningPubKey := none, TxnSignature := none }

/-- Modelled from the spec: serializeBrokerage (src/tx.ts, not under src/);
the acting account is the platform account. -/
def serializeBrokerage (platformAccount feeAccount : String) (rateNum rateDen : Nat)
    (token issuer : String) (fee : Nat) : Tx :=
  { Account := platformAccount,
    payload := String.intercalate "|"
      ["Brokerage", feeAccount, toString rateNum, toString rateDen, token, issuer],
    Fee := fee, Sequence := none, SigningPubKey := none, TxnSignature := none }

/-- Modelled from the spec: serializeSetBlackList (src/tx.ts, not under src/). -/
def serializeSetBlackList (address account memo : String) (fee : Nat) : Tx :=
  { Account := address,
    payload := String.intercalate "|" ["SetBlackList", account, memo],
    Fee := fee, Sequence := none, SigningPubKey := none, TxnSignature := none }

/-- Modelled from the spec: serializeRemoveBlackList (src/tx.ts, not under src/). -/
def serializeRemoveBlackList (address account memo : String) (fee : Nat) : Tx :=
  { Account := address,
    payload := String.intercalate "|" ["RemoveBlackList", account, memo],
    Fee := fee, Sequence := none, SigningPubKey := none, TxnSignature := none }

/-- Modelled from the spec: serializeManageIssuer (src/tx.ts, not under src/). -/
def serializeManageIssuer (address account memo : String) (fee : Nat) : Tx :=
  { Account := address,
    payload := String.intercalate "|" ["ManageIssuer", account, memo],
    Fee := fee, Sequence := none, SigningPubKey := none, TxnSignature := none }

/-- Modelled from the spec: serializeIssueSet (src/tx.ts, not under src/). -/
def serializeIssueSet (address amount token memo issuer : String) (fee : Nat) : Tx :=
  { Account := address,
    payload := String.intercalate "|" ["IssueSet", amount, token, memo, issuer],
    Fee := fee, Sequence := none, SigningPubKey := none, TxnSignature := none }

/-- Modelled from the spec: serializeSignerList (src/tx.ts, not under src/);
the signer entries are opaque pass-through data. -/
def serializeSignerList (address : String) (signerQuorum : Nat) (fee : Nat)
    (signerEntries : Option String) : Tx :=
  { Account := address,
    payload := String.intercalate "|"
      ["SignerList", toString signerQuorum, signerEntries.getD ""],
    Fee := fee, Sequence := none, SigningPubKey := none, TxnSignature := none }

/-- Modelled from the spec: serializeSetAccount (src/tx.ts, not under src/). -/
def serializeSetAccount (address : String) (disable : Bool) (fee : Nat) : Tx :=
  { Account := address,
    payload := String.intercalate "|" ["SetAccount", toString disable],
    Fee := fee, Sequence := none, SigningPubKey := none, TxnSignature := none }

/-- Modelled from the spec: serialize721Payment (src/tx.ts, not under src/). -/
def serialize721Payment (account receiver tokenId : String) (fee : Nat)
    (memo : Option String) : Tx :=
  { Account := account,
    payload := String.intercalate "|" ["721Payment", receiver, tokenId, memo.getD ""],
    Fee := fee, Sequence := none, SigningPubKey := none, TxnSignature := none }

/-- Modelled from the spec: serialize721Delete (src/tx.ts, not under src/). -/
def serialize721Delete (account tokenId : String) (fee : Nat) : Tx :=
  { Account := account,
    payload := String.intercalate "|" ["721Delete", tokenId],
    Fee := fee, Sequence := none, SigningPubKey := none, TxnSignature := none }

/-- Modelled from the spec: serializeTokenIssue (src/tx.ts, not under src/);
the token flag is opaque pass-through data. -/
def serializeTokenIssue (account publisher : String) (amount : Nat) (token : String)
    (flag : Nat) (fee : Nat) : Tx :=
  { Account := account,
    payload := String.intercalate "|"
      ["TokenIssue", publisher, toString amount, token, toString flag],
    Fee := fee, Sequence := none, SigningPubKey := none, TxnSignature := none }

/-- Modelled from the spec: serialize721Publish (src/tx.ts, not under src/);
the token infos are opaque pass-through data. -/
def serialize721Publish (account receiver token tokenId : String) (fee : Nat)
    (tokenInfos : Option String) : Tx :=
  { Account := account,
    payload := String.intercalate "|"
      ["721Publish", receiver, token, tokenId, tokenInfos.getD ""],
    Fee := fee, Sequence := none, SigningPubKey := none, TxnSignature := none }

/-- The try/advance-or-clear shape the design asks every facade operation to
follow: run the submission, then on resolve advance the cached sequence of the
acting account and return the hash, on any rejection clear it and re-raise the
same error; a still-running loop has no facade-level effect. -/
def withSeqBookkeeping (account : String) (run : LoopSt → SubmitOutcome × LoopSt)
    (st : LoopSt) : SubmitOutcome × LoopSt :=
  match run st with
  | (.ok h, st1) => (.ok h, seqRise account st1)
  | (.err e, st1) => (.err e, seqReset account st1)
  | (.fuelOut, st1) => (.fuelOut, st1)

/-- Transaction.createOrder (src/index.ts lines 153-184). -/
def Transaction.createOrder (cfg : TxCfg) (address secret amount base counter sum type platform : String)
    (issuer : Option String) (st : LoopSt) : SubmitOutcome × LoopSt :=
  let tx := serializeCreateOrder address amount base counter sum type platform
    cfg.currency cfg.fee (issuerOrDefault issuer cfg.issuer)
  match Transaction.submit cfg.script cfg.nodes cfg.rand cfg.retry cfg.fuel secret tx st with
  | (.ok h, st1) => (.ok h, seqRise address st1)
  | (.err e, st1) => (.err e, seqReset address st1)
  | (.fuelOut, st1) => (.fuelOut, st1)

/-- Transaction.cancelOrder (src/index.ts lines 195-205). -/
def Transaction.cancelOrder (cfg : TxCfg) (address secret : String) (offerSequence : Nat)
    (st : LoopSt) : SubmitOutcome × LoopSt :=
  let tx := serializeCancelOrder address offerSequence cfg.fee
  match Transaction.submit cfg.script cfg.nodes cfg.rand cfg.retry cfg.fuel secret tx st with
  | (.ok h, st1) => (.ok h, seqRise address st1)
  | (.err e, st1) => (.err e, seqReset address st1)
  | (.fuelOut, st1) => (.fuelOut, st1)

/-- Transaction.transfer (src/index.ts lines 220-247). -/
def Transaction.transfer (cfg : TxCfg) (address secret amount memo dest token : String)
    (issuer : Option String) (st : LoopSt) : SubmitOutcome × LoopSt :=
  let tx := serializePayment address amount dest token memo cfg.fee cfg.currency
    (issuerOrDefault issuer cfg.issuer)
  match Transaction.submit cfg.script cfg.nodes cfg.rand cfg.retry cfg.fuel secret tx st with
  | (.ok h, st1) => (.ok h, seqRise address st1)
  | (.err e, st1) => (.err e, seqReset address st1)
  | (.fuelOut, st1) => (.fuelOut, st1)

/-- Transaction.setBrokerage (src/index.ts lines 262-288); bookkeeping acts on
the platform account. -/
def Transaction.setBrokerage (cfg : TxCfg) (platformAccount platformSecret feeAccount : String)
    (rateNum rateDen : Nat) (token : String) (issuer : Option String) (st : LoopSt) :
    SubmitOutcome × LoopSt :=
  let tx := serializeBrokerage platformAccount feeAccount rateNum rateDen token
    (issuerOrDefault issuer cfg.issuer) cfg.fee
  match Transaction.submit cfg.script cfg.nodes cfg.rand cfg.retry cfg.fuel platformSecret tx st with
  | (.ok h, st1) => (.ok h, seqRise platformAccount st1)
  | (.err e, st1) => (.err e, seqReset platformAccount st1)
  | (.fuelOut, st1) => (.fuelOut, st1)

/-- Transaction.addBlackList (src/index.ts lines 300-310). -/
def Transaction.addBlackList (cfg : TxCfg) (address secret account memo : String)
    (st : LoopSt) : SubmitOutcome × LoopSt :=
  let tx := serializeSetBlackList address account memo cfg.fee
  match Transaction.submit cfg.script cfg.nodes cfg.rand cfg.retry cfg.fuel secret tx st with
  | (.ok h, st1) => (.ok h, seqRise address st1)
  | (.err e, st1) => (.err e, seqReset address st1)
  | (.fuelOut, st1) => (.fuelOut, st1)

/-- Transaction.removeBlackList (src/index.ts lines 322-337). -/
def Transaction.removeBlackList (cfg : TxCfg) (address secret account memo : String)
    (st : LoopSt) : SubmitOutcome × LoopSt :=
  let tx := serializeRemoveBlackList address account memo cfg.fee
  match Transaction.submit cfg.script cfg.nodes cfg.rand cfg.retry cfg.fuel secret tx st with
  | (.ok h, st1) => (.ok h, seqRise address st1)
  | (.err e, st1) => (.err e, seqReset address st1)
  | (.fuelOut, st1) => (.fuelOut, st1)

/-- Transaction.setManageIssuer (src/index.ts lines 349-364). -/
def Transaction.setManageIssuer (cfg : TxCfg) (address secret account memo : String)
    (st : LoopSt) : SubmitOutcome × LoopSt :=
  let tx := serializeManageIssuer address account memo cfg.fee
  match Transaction.submit cfg.script cfg.nodes cfg.rand cfg.retry cfg.fuel secret tx st with
  | (.ok h, st1) => (.ok h, seqRise address st1)
  | (.err e, st1) => (.err e, seqReset address st1)
  | (.fuelOut, st1) => (.fuelOut, st1)

/-- Transaction.issueSet (src/index.ts lines 378-395). -/
def Transaction.issueSet (cfg : TxCfg) (address secret amount memo token issuer : String)
    (st : LoopSt) : SubmitOutcome × LoopSt :=
  let tx := serializeIssueSet address amount token memo issuer cfg.fee
  match Transaction.submit cfg.script cfg.nodes cfg.rand cfg.retry cfg.fuel secret tx st with
  | (.ok h, st1) => (.ok h, seqRise address st1)
  | (.err e, st1) => (.err e, seqReset address st1)
  | (.fuelOut, st1) => (.fuelOut, st1)

/-- Transaction.setSignerList (src/index.ts lines 407-422). -/
def Transaction.setSignerList (cfg : TxCfg) (address secret : String) (signerQuorum : Nat)
    (signerEntries : Option String) (st : LoopSt) : SubmitOutcome × LoopSt :=
  let tx := serializeSignerList address signerQuorum cfg.fee signerEntries
  match Transaction.submit cfg.script cfg.nodes cfg.rand cfg.retry cfg.fuel secret tx st with
  | (.ok h, st1) => (.ok h, seqRise address st1)
  | (.err e, st1) => (.err e, seqReset address st1)
  | (.fuelOut, st1) => (.fuelOut, st1)

/-- Transaction.setAccount (src/index.ts lines 424-434). -/
def Transaction.setAccount (cfg : TxCfg) (address secret : String) (disable : Bool)
    (st : LoopSt) : SubmitOutcome × LoopSt :=
  let tx := serializeSetAccount address disable cfg.fee
  match Transaction.submit cfg.script cfg.nodes cfg.rand cfg.retry cfg.fuel secret tx st with
  | (.ok h, st1) => (.ok h, seqRise address st1)
  | (.err e, st1) => (.err e, seqReset address st1)
  | (.fuelOut, st1) => (.fuelOut, st1)

/-- Transaction.transfer721 (src/index.ts lines 447-463). -/
def Transaction.transfer721 (cfg : TxCfg) (account secret receiver tokenId : String)
    (memo : Option String) (st : LoopSt) : SubmitOutcome × LoopSt :=
  let tx := serialize721Payment account receiver tokenId cfg.fee memo
  match Transaction.submit cfg.script cfg.nodes cfg.rand cfg.retry cfg.fuel secret tx st with
  | (.ok h, st1) => (.ok h, seqRise account st1)
  | (.err e, st1) => (.err e, seqReset account st1)
  | (.fuelOut, st1) => (.fuelOut, st1)

/-- Transaction.delete721 (src/index.ts lines 474-484). -/
def Transaction.delete721 (cfg : TxCfg) (account secret tokenId : String)
    (st : LoopSt) : SubmitOutcome × LoopSt :=
  let tx := serialize721Delete account tokenId cfg.fee
  match Transaction.submit cfg.script cfg.nodes cfg.rand cfg.retry cfg.fuel secret tx st with
  | (.ok h, st1) => (.ok h, seqRise account st1)
  | (.err e, st1) => (.err e, seqReset account st1)
  | (.fuelOut, st1) => (.fuelOut, st1)

/-- Transaction.setTokenIssue (src/index.ts lines 498-515). -/
def Transaction.setTokenIssue (cfg : TxCfg) (account secret publisher : String)
    (amount : Nat) (token : String) (flag : Nat) (st : LoopSt) : SubmitOutcome × LoopSt :=
  let tx := serializeTokenIssue account publisher amount token flag cfg.fee
  match Transaction.submit cfg.script cfg.nodes cfg.rand cfg.retry cfg.fuel secret tx st with
  | (.ok h, st1) => (.ok h, seqRise account st1)
  | (.err e, st1) => (.err e, seqReset account st1)
  | (.fuelOut, st1) => (.fuelOut, st1)

/-- Transaction.publish721 (src/index.ts lines 529-546). -/
def Transaction.publish721 (cfg : TxCfg) (account secret receiver token tokenId : String)
    (tokenInfos : Option String) (st : LoopSt) : SubmitOutcome × LoopSt :=
  let tx := serialize721Publish account receiver token tokenId cfg.fee tokenInfos
  match Transaction.submit cfg.script cfg.nodes cfg.rand cfg.retry cfg.fuel secret tx st with
  | (.ok h, st1) => (.ok h, seqRise account st1)
  | (.err e, st1) => (.err e, seqReset account st1)
  | (.fuelOut, st1) => (.fuelOut, st1)

/-- A response accepting the transaction with the given hash. -/
def successResp (h : String) : NodeResponse :=
  some { result := some { engine_result := some "tesSUCCESS",
                          tx_json := some { hash := some h } } }

/-- A sequence-already-used rejection. -/
def pastSeqResp : NodeResponse :=
  some { result := some { engine_result := some "tefPAST_SEQ", tx_json := none } }

/-- A sequence-too-high rejection. -/
def preSeqResp : NodeResponse :=
  some { result := some { engine_result := some "terPRE_SEQ", tx_json := none } }

/-- A non-sequence fatal rejection. -/
def badFeeResp : NodeResponse :=
  some { result := some { engine_result := some "temBAD_FEE", tx_json := none } }

/-- Script where every submission is rejected with tefPAST_SEQ. -/
def allPastSeqScript : Script :=
  { fetchVals := fun i => 5 + i, responses := fun _ => pastSeqResp }

/-- Script with responses terPRE_SEQ then tesSUCCESS with hash ABCD. -/
def preThenSuccessScript : Script :=
  { fetchVals := fun i => 5 + i,
    responses := fun i => if i = 0 then preSeqResp else successResp "ABCD" }

/-- Script where every submission is accepted but the reported hash is the
empty string, which is falsy in JavaScript. -/
def emptyHashScript : Script :=
  { fetchVals := fun i => 5 + i, responses := fun _ => successResp "" }

/-- Script with an accepted-but-empty-hash response followed by a fatal one. -/
def emptyThenFatalScript : Script :=
  { fetchVals := fun i => 5 + i,
    responses := fun i => if i = 0 then successResp "" else badFeeResp }

/-- Script where every submission is accepted with hash ABCD. -/
def allSuccessScript : Script :=
  { fetchVals := fun i => 5 + i, responses := fun _ => successResp "ABCD" }

/-- Script where every submission is rejected with the fatal temBAD_FEE. -/
def allBadFeeScript : Script :=
  { fetchVals := fun i => 5 + i, responses := fun _ => badFeeResp }

/-- Script where every submitTransaction call resolves to null/undefined. -/
def nullRespScript : Script :=
  { fetchVals := fun i => 5 + i, responses := fun _ => none }

/-- A concrete transaction used by witnesses. -/
def txA : Tx :=
  { Account := "A", payload := "demo", Fee := 10, Sequence := none,
    SigningPubKey := none, TxnSignature := none }

/-- A response stream is success-wellformed when every accepted response
either reports a truthy (present, nonempty) hash or is malformed enough to
raise a TypeError; only such streams make the while loop leave the success
branch. -/
def goodResp (res : NodeResponse) : Bool :=
  if engineResult res = some "tesSUCCESS" then
    match txJsonHash res with
    | .error _ => true
    | .ok none => false
    | .ok (some h) => !(h = "")
  else true

/-- The submission log is aligned with the sequence log: the i-th submitted
blob was produced by signing, for this iteration, a fresh copy of the caller
transaction stamped with the i-th resolved sequence, and was sent to the given
node.  This is the no-stale-signature invariant of the design. -/
def signedLogOk (node secret : String) (tx : Tx) (st : LoopSt) : Prop :=
  st.subLog.length = st.seqLog.length ∧
  ∀ i, i < st.seqLog.length →
    st.subLog.getD i ("", txDefault) =
      (node, (Wallet.sign { tx with Sequence := some (st.seqLog.getD i 0) } secret).blob)

/-- Every recorded fetch and every recorded submission went to the given node. -/
def nodeLogOk (node : String) (st : LoopSt) : Prop :=
  (∀ e ∈ st.fetchLog, e.1 = node) ∧ (∀ e ∈ st.subLog, e.1 = node)

/-! Helper lemmas about the resolver, the per-iteration state change, and the
branch structure of one loop iteration. -/

theorem seqGet_hit {st : LoopSt} {a : String} {v : Nat} (script : Script) (node : String)
    (h : st.cache a = some v) :
    seqGet script a node st = (v, { st with getCount := st.getCount + 1 }) := by
  simp [seqGet, h]

theorem seqGet_miss {st : LoopSt} {a : String} (script : Script) (node : String)
    (h : st.cache a = none) :
    seqGet script a node st =
      (script.fetchVals st.fetchIdx,
       { st with
         cache := fun x => if x = a then some (script.fetchVals st.fetchIdx) else st.cache x,
         fetchIdx := st.fetchIdx + 1,
         getCount := st.getCount + 1,
         fetchLog := st.fetchLog ++ [(node, a)] }) := by
  simp [seqGet, h]

theorem seqGet_fst (script : Script) (a node : String) (st : LoopSt) :
    (seqGet script a node st).1 = resolvedSeq script st a := by
  rcases h : st.cache a with _ | v <;>
    simp [seqGet, resolvedSeq, h]

theorem seqGet_snd_respIdx (script : Script) (a node : String) (st : LoopSt) :
    (seqGet script a node st).2.respIdx = st.respIdx := by
  rcases h : st.cache a with _ | v <;> simp [seqGet, h]

theorem seqGet_snd_callerTx (script : Script) (a node : String) (st : LoopSt) :
    (seqGet script a node st).2.callerTx = st.callerTx := by
  rcases h : st.cache a with _ | v <;> simp [seqGet, h]

theorem seqGet_snd_subLog (script : Script) (a node : String) (st : LoopSt) :
    (seqGet script a node st).2.subLog = st.subLog := by
  rcases h : st.cache a with _ | v <;> simp [seqGet, h]

theorem seqGet_snd_seqLog (script : Script) (a node : String) (st : LoopSt) :
    (seqGet script a node st).2.seqLog = st.seqLog := by
  rcases h : st.cache a with _ | v <;> simp [seqGet, h]

theorem seqGet_snd_getCount (script : Script) (a node : String) (st : LoopSt) :
    (seqGet script a node st).2.getCount = st.getCount + 1 := by
  rcases h : st.cache a with _ | v <;> simp [seqGet, h]

theorem seqGet_snd_cache_self (script : Script) (a node : String) (st : LoopSt) :
    (seqGet script a node st).2.cache a = some (resolvedSeq script st a) := by
  rcases h : st.cache a with _ | v <;> simp [seqGet, resolvedSeq, h]

theorem stAfterSubmit_respIdx (script : Script) (node secret : String) (st : LoopSt) :
    (stAfterSubmit script node secret st).respIdx = st.respIdx + 1 := by
  simp [stAfterSubmit, seqGet_snd_respIdx]

theorem stAfterSubmit_callerTx (script : Script) (node secret : String) (st : LoopSt) :
    (stAfterSubmit script node secret st).callerTx = st.callerTx := by
  simp [stAfterSubmit, seqGet_snd_callerTx]

theorem stAfterSubmit_subLog (script : Script) (node secret : String) (st : LoopSt) :
    (stAfterSubmit script node secret st).subLog =
      st.subLog ++ [(node, (Wallet.sign
        { st.callerTx with Sequence := some (resolvedSeq script st st.callerTx.Account) }
        secret).blob)] := by
  simp [stAfterSubmit, seqGet_snd_subLog, seqGet_fst]

theorem stAfterSubmit_seqLog (script : Script) (node secret : String) (st : LoopSt) :
    (stAfterSubmit script node secret st).seqLog =
      st.seqLog ++ [resolvedSeq script st st.callerTx.Account] := by
  simp [stAfterSubmit, seqGet_snd_seqLog, seqGet_fst]

theorem stAfterSubmit_getCount (script : Script) (node secret : String) (st : LoopSt) :
    (stAfterSubmit script node secret st).getCount = st.getCount + 1 := by
  simp [stAfterSubmit, seqGet_snd_getCount]

theorem stAfterSubmit_cache_account (script : Script) (node secret : String) (st : LoopSt) :
    (stAfterSubmit script node secret st).cache st.callerTx.Account =
      some (resolvedSeq script st st.callerTx.Account) := by
  simp [stAfterSubmit, seqGet_snd_cache_self]

theorem seqReset_cache_self (a : String) (st : LoopSt) :
    (seqReset a st).cache a = none := by
  simp [seqReset]

theorem seqReset_respIdx (a : String) (st : LoopSt) :
    (seqReset a st).respIdx = st.respIdx := rfl

theorem seqReset_callerTx (a : String) (st : LoopSt) :
    (seqReset a st).callerTx = st.callerTx := rfl

theorem seqReset_subLog (a : String) (st : LoopSt) :
    (seqReset a st).subLog = st.subLog := rfl

theorem seqReset_seqLog (a : String) (st : LoopSt) :
    (seqReset a st).seqLog = st.seqLog := rfl

theorem seqReset_fetchLog (a : String) (st : LoopSt) :
    (seqReset a st).fetchLog = st.fetchLog := rfl

theorem submitIter_success (script : Script) (node secret : String) (retry : Int)
    (st : LoopSt) {hs : String}
    (h1 : engineResult (script.responses st.respIdx) = some "tesSUCCESS")
    (h2 : txJsonHash (script.responses st.respIdx) = .ok (some hs))
    (h3 : hs ≠ "") :
    submitIter script node secret retry st =
      .done (.ok hs) (stAfterSubmit script node secret st) := by
  simp [submitIter, h1, h2, h3]

theorem submitIter_success_falsy (script : Script) (node secret : String) (retry : Int)
    (st : LoopSt)
    (h1 : engineResult (script.responses st.respIdx) = some "tesSUCCESS")
    (h2 : txJsonHash (script.responses st.respIdx) = .ok none ∨
          txJsonHash (script.responses st.respIdx) = .ok (some "")) :
    submitIter script node secret retry st =
      .loop retry (stAfterSubmit script node secret st) := by
  rcases h2 with h2 | h2 <;> simp [submitIter, h1, h2]

theorem submitIter_success_crash (script : Script) (node secret : String) (retry : Int)
    (st : LoopSt)
    (h1 : engineResult (script.responses st.respIdx) = some "tesSUCCESS")
    (h2 : txJsonHash (script.responses st.respIdx) = .error ()) :
    submitIter script node secret retry st =
      .done (.err .typeErr) (stAfterSubmit script node secret st) := by
  simp [submitIter, h1, h2]

theorem submitIter_fatal (script : Script) (node secret : String) (retry : Int)
    (st : LoopSt)
    (h1 : engineResult (script.responses st.respIdx) ≠ some "tesSUCCESS")
    (h2 : engineResult (script.responses st.respIdx) ≠ some "terPRE_SEQ")
    (h3 : engineResult (script.responses st.respIdx) ≠ some "tefPAST_SEQ") :
    submitIter script node secret retry st =
      .done (.err (.node (script.responses st.respIdx)))
        (stAfterSubmit script node secret st) := by
  simp [submitIter, h1, h2, h3]

theorem submitIter_retryable (script : Script) (node secret : String) (retry : Int)
    (st : LoopSt)
    (h1 : engineResult (script.responses st.respIdx) = some "terPRE_SEQ" ∨
          engineResult (script.responses st.respIdx) = some "tefPAST_SEQ") :
    submitIter script node secret retry st =
      if retry - 1 < 0 then
        .done (.err (.node (script.responses st.respIdx)))
          (seqReset st.callerTx.Account (stAfterSubmit script node secret st))
      else
        .loop (retry - 1)
          (seqReset st.callerTx.Account (stAfterSubmit script node secret st)) := by
  rcases h1 with h1 | h1 <;> simp [submitIter, h1]

theorem submitLoop_zero (script : Script) (node secret : String) (retry : Int) (st : LoopSt) :
    submitLoop script node secret 0 retry st = (.fuelOut, st) := rfl

theorem submitLoop_succ_done {script : Script} {st st1 : LoopSt} {o : SubmitOutcome}
    {retry : Int} (node secret : String) (fuel : Nat)
    (h : submitIter script node secret retry st = .done o st1) :
    submitLoop script node secret (fuel + 1) retry st = (o, st1) := by
  simp [submitLoop, h]

theorem submitLoop_succ_loop {script : Script} {st st1 : LoopSt}
    {retry retry2 : Int} (node secret : String) (fuel : Nat)
    (h : submitIter script node secret retry st = .loop retry2 st1) :
    submitLoop script node secret (fuel + 1) retry st =
      submitLoop script node secret fuel retry2 st1 := by
  simp [submitLoop, h]

theorem engineResult_pastSeq : engineResult pastSeqResp = some "tefPAST_SEQ" := rfl

theorem engineResult_preSeq : engineResult preSeqResp = some "terPRE_SEQ" := rfl

theorem engineResult_badFee : engineResult badFeeResp = some "temBAD_FEE" := rfl

theorem engineResult_success (h : String) :
    engineResult (successResp h) = some "tesSUCCESS" := rfl

/-- Exact attempt count on an all-tefPAST_SEQ stream: with budget n the loop
submits exactly n + 1 times and then throws carrying the last response. -/
theorem pastSeq_run (node secret : String) :
    ∀ (n fuel : Nat) (st : LoopSt), n + 1 ≤ fuel →
      (submitLoop allPastSeqScript node secret fuel (n : Int) st).1 =
        .err (.node pastSeqResp) ∧
      (submitLoop allPastSeqScript node secret fuel (n : Int) st).2.respIdx =
        st.respIdx + (n + 1) := by
  intro n
  induction n with
  | zero =>
    intro fuel st hfuel
    cases fuel with
    | zero => omega
    | succ f =>
      have hretry : submitIter allPastSeqScript node secret ((0 : Nat) : Int) st =
          .done (.err (.node pastSeqResp))
            (seqReset st.callerTx.Account (stAfterSubmit allPastSeqScript node secret st)) := by
        have := submitIter_retryable allPastSeqScript node secret
          ((0 : Nat) : Int) st (Or.inr engineResult_pastSeq)
        simpa using this
      rw [submitLoop_succ_done node secret f hretry]
      refine ⟨rfl, ?_⟩
      simp [seqReset_respIdx, stAfterSubmit_respIdx]
  | succ n ih =>
    intro fuel st hfuel
    cases fuel with
    | zero => omega
    | succ f =>
      have hcast : ((n + 1 : Nat) : Int) - 1 = (n : Int) := by push_cast; ring
      have hretry : submitIter allPastSeqScript node secret ((n + 1 : Nat) : Int) st =
          .loop ((n : Nat) : Int)
            (seqReset st.callerTx.Account (stAfterSubmit allPastSeqScript node secret st)) := by
        have := submitIter_retryable allPastSeqScript node secret
          ((n + 1 : Nat) : Int) st (Or.inr engineResult_pastSeq)
        rw [hcast] at this
        simpa using this
      rw [submitLoop_succ_loop node secret f hretry]
      have hmain := ih f
        (seqReset st.callerTx.Account (stAfterSubmit allPastSeqScript node secret st))
        (by omega)
      refine ⟨hmain.1, ?_⟩
      rw [hmain.2]
      simp [seqReset_respIdx, stAfterSubmit_respIdx]
      omega

/-- On a success-wellformed stream the loop cannot run out of fuel
retry.toNat + 1 and performs at most retry.toNat + 1 submissions. -/
theorem good_bound (S : Script) (node secret : String)
    (Hgood : ∀ i, goodResp (S.responses i) = true) :
    ∀ (fuel : Nat) (retry : Int) (st : LoopSt), retry.toNat + 1 ≤ fuel →
      (submitLoop S node secret fuel retry st).1 ≠ .fuelOut ∧
      (submitLoop S node secret fuel retry st).2.respIdx ≤ st.respIdx + retry.toNat + 1 := by
  intro fuel
  induction fuel with
  | zero => intro retry st hfuel; omega
  | succ f ih =>
    intro retry st hfuel
    by_cases h1 : engineResult (S.responses st.respIdx) = some "tesSUCCESS"
    · rcases h2 : txJsonHash (S.responses st.respIdx) with u | hOpt
      · cases u
        rw [submitLoop_succ_done node secret f
          (submitIter_success_crash S node secret retry st h1 h2)]
        constructor
        · simp
        · simp only [stAfterSubmit_respIdx]
          omega
      · rcases hOpt with _ | hs
        · exfalso
          have := Hgood st.respIdx
          rw [goodResp, if_pos h1, h2] at this
          simp at this
        · by_cases he : hs = ""
          · exfalso
            have := Hgood st.respIdx
            subst he
            rw [goodResp, if_pos h1, h2] at this
            simp at this
          · rw [submitLoop_succ_done node secret f
              (submitIter_success S node secret retry st h1 h2 he)]
            constructor
            · simp
            · simp only [stAfterSubmit_respIdx]
              omega
    · by_cases h2 : engineResult (S.responses st.respIdx) = some "terPRE_SEQ" ∨
          engineResult (S.responses st.respIdx) = some "tefPAST_SEQ"
      · by_cases hneg : retry - 1 < 0
        · have hit := submitIter_retryable S node secret retry st h2
          rw [if_pos hneg] at hit
          rw [submitLoop_succ_done node secret f hit]
          constructor
          · simp
          · simp only [seqReset_respIdx, stAfterSubmit_respIdx]
            omega
        · have hit := submitIter_retryable S node secret retry st h2
          rw [if_neg hneg] at hit
          rw [submitLoop_succ_loop node secret f hit]
          have hmain := ih (retry - 1)
            (seqReset st.callerTx.Account (stAfterSubmit S node secret st))
            (by omega)
          refine ⟨hmain.1, ?_⟩
          have := hmain.2
          simp [seqReset_respIdx, stAfterSubmit_respIdx] at this
          omega
      · push_neg at h2
        rw [submitLoop_succ_done node secret f
          (submitIter_fatal S node secret retry st h1 h2.1 h2.2)]
        constructor
        · simp
        · simp only [stAfterSubmit_respIdx]
          omega

/-- The state carried out of one iteration is the post-submission state,
possibly with the cached sequence of the account cleared. -/
theorem submitIter_st_cases (S : Script) (node secret : String) (retry : Int)
    (st : LoopSt) :
    (submitIter S node secret retry st).st = stAfterSubmit S node secret st ∨
    (submitIter S node secret retry st).st =
      seqReset st.callerTx.Account (stAfterSubmit S node secret st) := by
  by_cases h1 : engineResult (S.responses st.respIdx) = some "tesSUCCESS"
  · rcases h2 : txJsonHash (S.responses st.respIdx) with u | hOpt
    · cases u
      left
      rw [submitIter_success_crash S node secret retry st h1 h2]
      rfl
    · rcases hOpt with _ | hs
      · left
        rw [submitIter_success_falsy S node secret retry st h1 (Or.inl h2)]
        rfl
      · by_cases he : hs = ""
        · subst he
          left
          rw [submitIter_success_falsy S node secret retry st h1 (Or.inr h2)]
          rfl
        · left
          rw [submitIter_success S node secret retry st h1 h2 he]
          rfl
  · by_cases h2 : engineResult (S.responses st.respIdx) = some "terPRE_SEQ" ∨
        engineResult (S.responses st.respIdx) = some "tefPAST_SEQ"
    · right
      rw [submitIter_retryable S node secret retry st h2]
      by_cases hneg : retry - 1 < 0
      · rw [if_pos hneg]
        rfl
      · rw [if_neg hneg]
        rfl
    · push_neg at h2
      left
      rw [submitIter_fatal S node secret retry st h1 h2.1 h2.2]
      rfl

/-- Every branch of one iteration leaves the caller transaction object
untouched: the loop body copies before stamping. -/
theorem submitIter_st_callerTx (S : Script) (node secret : String) (retry : Int)
    (st : LoopSt) : (submitIter S node secret retry st).st.callerTx = st.callerTx := by
  rcases submitIter_st_cases S node secret retry st with h | h <;> rw [h] <;>
    simp [stAfterSubmit_callerTx, seqReset_callerTx]

/-- Every branch of one iteration performs exactly one submission. -/
theorem submitIter_st_respIdx (S : Script) (node secret : String) (retry : Int)
    (st : LoopSt) : (submitIter S node secret retry st).st.respIdx = st.respIdx + 1 := by
  rcases submitIter_st_cases S node secret retry st with h | h <;> rw [h] <;>
    simp [stAfterSubmit_respIdx, seqReset_respIdx]

/-- The loop never writes the caller transaction object. -/
theorem submitLoop_callerTx (S : Script) (node secret : String) :
    ∀ (fuel : Nat) (retry : Int) (st : LoopSt),
      (submitLoop S node secret fuel retry st).2.callerTx = st.callerTx := by
  intro fuel
  induction fuel with
  | zero => intro retry st; rfl
  | succ f ih =>
    intro retry st
    have hpre := submitIter_st_callerTx S node secret retry st
    cases hi : submitIter S node secret retry st with
    | done o st1 =>
      rw [submitLoop_succ_done node secret f hi]
      rw [hi] at hpre
      exact hpre
    | loop r2 st1 =>
      rw [submitLoop_succ_loop node secret f hi]
      rw [hi] at hpre
      rw [ih r2 st1]
      exact hpre

/-- One stamp-sign-submit step extends an aligned log by one aligned entry. -/
theorem stAfterSubmit_signedLogOk (S : Script) (node secret : String) (st : LoopSt)
    (h : signedLogOk node secret st.callerTx st) :
    signedLogOk node secret st.callerTx (stAfterSubmit S node secret st) := by
  obtain ⟨hlen, hidx⟩ := h
  constructor
  · rw [stAfterSubmit_subLog, stAfterSubmit_seqLog]
    simp [hlen]
  · intro i hi
    rw [stAfterSubmit_subLog, stAfterSubmit_seqLog] at *
    simp only [List.length_append, List.length_singleton] at hi
    by_cases hlt : i < st.seqLog.length
    · rw [List.getD_append _ _ _ _ (by omega), List.getD_append _ _ _ _ hlt]
      exact hidx i hlt
    · have hieq : i = st.seqLog.length := by omega
      rw [List.getD_append_right _ _ _ _ (by omega),
          List.getD_append_right _ _ _ _ (by omega)]
      subst hieq
      simp [hlen]

/-- The aligned-log invariant is preserved by every iteration branch. -/
theorem submitIter_signedLogOk (S : Script) (node secret : String) (retry : Int)
    (st : LoopSt) (h : signedLogOk node secret st.callerTx st) :
    signedLogOk node secret st.callerTx ((submitIter S node secret retry st).st) := by
  have hstep := stAfterSubmit_signedLogOk S node secret st h
  have hreset : signedLogOk node secret st.callerTx
      (seqReset st.callerTx.Account (stAfterSubmit S node secret st)) := by
    obtain ⟨hlen, hidx⟩ := hstep
    exact ⟨by simpa [seqReset_subLog, seqReset_seqLog] using hlen,
      by simpa [seqReset_subLog, seqReset_seqLog] using hidx⟩
  rcases submitIter_st_cases S node secret retry st with hc | hc <;> rw [hc]
  · exact hstep
  · exact hreset

/-- The aligned-log invariant holds for the final state of the loop. -/
theorem submitLoop_signedLogOk (S : Script) (node secret : String) :
    ∀ (fuel : Nat) (retry : Int) (st : LoopSt), signedLogOk node secret st.callerTx st →
      signedLogOk node secret st.callerTx ((submitLoop S node secret fuel retry st).2) := by
  intro fuel
  induction fuel with
  | zero => intro retry st h; exact h
  | succ f ih =>
    intro retry st h
    have hstep := submitIter_signedLogOk S node secret retry st h
    have hct := submitIter_st_callerTx S node secret retry st
    cases hi : submitIter S node secret retry st with
    | done o st1 =>
      rw [submitLoop_succ_done node secret f hi]
      rw [hi] at hstep
      exact hstep
    | loop r2 st1 =>
      rw [submitLoop_succ_loop node secret f hi]
      rw [hi] at hstep hct
      simp only [IterRes.st] at hstep hct
      have := ih r2 st1 (by rw [hct]; exact hstep)
      rw [hct] at this
      exact this

/-- The node-usage invariant is preserved by the resolver. -/
theorem seqGet_nodeLogOk (S : Script) (a node : String) (st : LoopSt)
    (h : nodeLogOk node st) : nodeLogOk node (seqGet S a node st).2 := by
  obtain ⟨hf, hs⟩ := h
  rcases hc : st.cache a with _ | v
  · rw [seqGet_miss S node hc]
    refine ⟨?_, hs⟩
    intro e he
    simp only [List.mem_append, List.mem_singleton] at he
    rcases he with he | he
    · exact hf e he
    · rw [he]
  · rw [seqGet_hit S node hc]
    exact ⟨hf, hs⟩

/-- The node-usage invariant is preserved by one stamp-sign-submit step. -/
theorem stAfterSubmit_nodeLogOk (S : Script) (node secret : String) (st : LoopSt)
    (h : nodeLogOk node st) : nodeLogOk node (stAfterSubmit S node secret st) := by
  have hget := seqGet_nodeLogOk S st.callerTx.Account node st h
  obtain ⟨hf, hs⟩ := hget
  unfold stAfterSubmit
  refine ⟨hf, ?_⟩
  intro e he
  simp only [List.mem_append, List.mem_singleton] at he
  rcases he with he | he
  · exact hs e he
  · rw [he]

/-- The node-usage invariant is preserved by every iteration branch. -/
theorem submitIter_nodeLogOk (S : Script) (node secret : String) (retry : Int)
    (st : LoopSt) (h : nodeLogOk node st) :
    nodeLogOk node ((submitIter S node secret retry st).st) := by
  have hstep := stAfterSubmit_nodeLogOk S node secret st h
  have hreset : nodeLogOk node (seqReset st.callerTx.Account (stAfterSubmit S node secret st)) := by
    obtain ⟨hf, hs⟩ := hstep
    exact ⟨by simpa [seqReset_fetchLog] using hf, by simpa [seqReset_subLog] using hs⟩
  rcases submitIter_st_cases S node secret retry st with hc | hc <;> rw [hc]
  · exact hstep
  · exact hreset

/-- The node-usage invariant holds for the final state of the loop. -/
theorem submitLoop_nodeLogOk (S : Script) (node secret : String) :
    ∀ (fuel : Nat) (retry : Int) (st : LoopSt), nodeLogOk node st →
      nodeLogOk node ((submitLoop S node secret fuel retry st).2) := by
  intro fuel
  induction fuel with
  | zero => intro retry st h; exact h
  | succ f ih =>
    intro retry st h
    have hstep := submitIter_nodeLogOk S node secret retry st h
    cases hi : submitIter S node secret retry st with
    | done o st1 =>
      rw [submitLoop_succ_done node secret f hi]
      rw [hi] at hstep
      exact hstep
    | loop r2 st1 =>
      rw [submitLoop_succ_loop node secret f hi]
      rw [hi] at hstep
      exact ih r2 st1 hstep

theorem seqReset_getCount (a : String) (st : LoopSt) :
    (seqReset a st).getCount = st.getCount := rfl

theorem seqReset_fetchIdx (a : String) (st : LoopSt) :
    (seqReset a st).fetchIdx = st.fetchIdx := rfl

theorem seqRise_cache_self (a : String) (st : LoopSt) :
    (seqRise a st).cache a = (st.cache a).map (· + 1) := by
  simp [seqRise]

theorem stAfterSubmit_fetchIdx_miss {S : Script} {st : LoopSt} (node secret : String)
    (h : st.cache st.callerTx.Account = none) :
    (stAfterSubmit S node secret st).fetchIdx = st.fetchIdx + 1 := by
  unfold stAfterSubmit
  rw [seqGet_miss S node h]

/-- Unfold Transaction.submit to the fuelled loop on the state holding the
caller transaction. -/
theorem submit_eq (S : Script) (nodes : List String) (rand : Nat) (retry : Int)
    (fuel : Nat) (secret : String) (tx : Tx) (st : LoopSt) :
    Transaction.submit S nodes rand retry fuel secret tx st =
      submitLoop S (Transaction.getNode nodes rand) secret fuel retry
        { st with callerTx := tx } := rfl

/-! The claims. -/

/-- Claim C2: constructed with retry budget n and fed a stream of tefPAST_SEQ
responses, submit raises a failure carrying the last response after exactly
n + 1 submission attempts, never n + 2. -/
theorem claim_C2 (n : Nat) (nodes : List String) (rand : Nat) (fuel : Nat)
    (secret : String) (tx : Tx) (st : LoopSt) (hfuel : n + 1 ≤ fuel) :
    (Transaction.submit allPastSeqScript nodes rand (n : Int) fuel secret tx st).1 =
      .err (.node pastSeqResp) ∧
    (Transaction.submit allPastSeqScript nodes rand (n : Int) fuel secret tx st).2.respIdx =
      st.respIdx + (n + 1) ∧
    ¬((Transaction.submit allPastSeqScript nodes rand (n : Int) fuel secret tx st).2.respIdx =
      st.respIdx + (n + 2)) := by
  rw [submit_eq]
  have hrun := pastSeq_run (Transaction.getNode nodes rand) secret n fuel
    { st with callerTx := tx } hfuel
  have h2 : (submitLoop allPastSeqScript (Transaction.getNode nodes rand) secret fuel
      (n : Int) { st with callerTx := tx }).2.respIdx = st.respIdx + (n + 1) := hrun.2
  refine ⟨hrun.1, h2, ?_⟩
  rw [h2]
  omega

/-- Witness for C2 at n = 2: three attempts happen, not four. -/
theorem claim_C2_witness :
    2 + 1 ≤ 3 ∧
    ((Transaction.submit allPastSeqScript ["n1"] 0 ((2 : Nat) : Int) 3 "sec" txA (initSt txA)).1 =
        .err (.node pastSeqResp) ∧
      (Transaction.submit allPastSeqScript ["n1"] 0 ((2 : Nat) : Int) 3 "sec" txA (initSt txA)).2.respIdx =
        (initSt txA).respIdx + (2 + 1) ∧
      ¬((Transaction.submit allPastSeqScript ["n1"] 0 ((2 : Nat) : Int) 3 "sec" txA (initSt txA)).2.respIdx =
        (initSt txA).respIdx + (2 + 2))) :=
  ⟨by omega, claim_C2 2 ["n1"] 0 3 "sec" txA (initSt txA) (by omega)⟩

/-- Counterexample to claim C3 as stated: with retry budget 0 and a first
tefPAST_SEQ response, submit performs exactly one submission attempt and
fails; it does not perform a second attempt. -/
theorem claim_C3_cex :
    (Transaction.submit allPastSeqScript ["n1"] 0 0 2 "sec" txA (initSt txA)).1 =
      .err (.node pastSeqResp) ∧
    (Transaction.submit allPastSeqScript ["n1"] 0 0 2 "sec" txA (initSt txA)).2.respIdx = 1 ∧
    ¬((Transaction.submit allPastSeqScript ["n1"] 0 0 2 "sec" txA (initSt txA)).2.respIdx = 2) := by
  refine ⟨by decide, by decide, by decide⟩

/-- Claim C3 (amended): with retry budget 0 a first sequence-conflict response
(terPRE_SEQ or tefPAST_SEQ) immediately exhausts the budget: submit fails
after exactly one submission attempt, with no retry. -/
theorem claim_C3 (S : Script) (nodes : List String) (rand : Nat) (f : Nat)
    (secret : String) (tx : Tx) (st : LoopSt)
    (hretry : engineResult (S.responses st.respIdx) = some "terPRE_SEQ" ∨
      engineResult (S.responses st.respIdx) = some "tefPAST_SEQ") :
    (Transaction.submit S nodes rand 0 (f + 1) secret tx st).1 =
      .err (.node (S.responses st.respIdx)) ∧
    (Transaction.submit S nodes rand 0 (f + 1) secret tx st).2.respIdx =
      st.respIdx + 1 := by
  rw [submit_eq]
  have hit := submitIter_retryable S (Transaction.getNode nodes rand) secret 0
    { st with callerTx := tx } hretry
  rw [if_pos (by omega)] at hit
  rw [submitLoop_succ_done (Transaction.getNode nodes rand) secret f hit]
  refine ⟨rfl, ?_⟩
  simp only [seqReset_respIdx, stAfterSubmit_respIdx]

/-- Witness for the amended C3 on a concrete terPRE_SEQ stream. -/
theorem claim_C3_witness :
    (engineResult (preThenSuccessScript.responses (initSt txA).respIdx) = some "terPRE_SEQ" ∨
      engineResult (preThenSuccessScript.responses (initSt txA).respIdx) = some "tefPAST_SEQ") ∧
    ((Transaction.submit preThenSuccessScript ["n1"] 0 0 (1 + 1) "sec" txA (initSt txA)).1 =
        .err (.node (preThenSuccessScript.responses (initSt txA).respIdx)) ∧
      (Transaction.submit preThenSuccessScript ["n1"] 0 0 (1 + 1) "sec" txA (initSt txA)).2.respIdx =
        (initSt txA).respIdx + 1) :=
  ⟨Or.inl rfl, claim_C3 preThenSuccessScript ["n1"] 0 1 "sec" txA (initSt txA) (Or.inl rfl)⟩

/-- Claim C4: a first response whose engine result is none of tesSUCCESS,
terPRE_SEQ, tefPAST_SEQ makes submit raise after exactly one submission
attempt, for every remaining retry budget, and the raised error carries the
full last node response. -/
theorem claim_C4 (S : Script) (nodes : List String) (rand : Nat) (retry : Int)
    (f : Nat) (secret : String) (tx : Tx) (st : LoopSt)
    (h1 : engineResult (S.responses st.respIdx) ≠ some "tesSUCCESS")
    (h2 : engineResult (S.responses st.respIdx) ≠ some "terPRE_SEQ")
    (h3 : engineResult (S.responses st.respIdx) ≠ some "tefPAST_SEQ") :
    (Transaction.submit S nodes rand retry (f + 1) secret tx st).1 =
      .err (.node (S.responses st.respIdx)) ∧
    (Transaction.submit S nodes rand retry (f + 1) secret tx st).2.respIdx =
      st.respIdx + 1 := by
  rw [submit_eq]
  have hit := submitIter_fatal S (Transaction.getNode nodes rand) secret retry
    { st with callerTx := tx } h1 h2 h3
  rw [submitLoop_succ_done (Transaction.getNode nodes rand) secret f hit]
  refine ⟨rfl, ?_⟩
  simp only [stAfterSubmit_respIdx]

/-- Witness for C4: a temBAD_FEE first response with a large remaining budget
still fails after one attempt. -/
theorem claim_C4_witness :
    (engineResult (allBadFeeScript.responses (initSt txA).respIdx) ≠ some "tesSUCCESS" ∧
      engineResult (allBadFeeScript.responses (initSt txA).respIdx) ≠ some "terPRE_SEQ" ∧
      engineResult (allBadFeeScript.responses (initSt txA).respIdx) ≠ some "tefPAST_SEQ") ∧
    ((Transaction.submit allBadFeeScript ["n1"] 0 100 (4 + 1) "sec" txA (initSt txA)).1 =
        .err (.node (allBadFeeScript.responses (initSt txA).respIdx)) ∧
      (Transaction.submit allBadFeeScript ["n1"] 0 100 (4 + 1) "sec" txA (initSt txA)).2.respIdx =
        (initSt txA).respIdx + 1) :=
  ⟨⟨by decide, by decide, by decide⟩,
    claim_C4 allBadFeeScript ["n1"] 0 100 4 "sec" txA (initSt txA)
      (by decide) (by decide) (by decide)⟩

/-- Claim C10: a response lacking result or engine_result (including null)
is classified as non-retryable: submit throws at once carrying that response,
after exactly one attempt, and the cached sequence for the account is not
reset, so it still holds the sequence resolved for this attempt. -/
theorem claim_C10 (S : Script) (nodes : List String) (rand : Nat) (retry : Int)
    (f : Nat) (secret : String) (tx : Tx) (st : LoopSt)
    (h1 : engineResult (S.responses st.respIdx) = none) :
    (Transaction.submit S nodes rand retry (f + 1) secret tx st).1 =
      .err (.node (S.responses st.respIdx)) ∧
    (Transaction.submit S nodes rand retry (f + 1) secret tx st).2.respIdx =
      st.respIdx + 1 ∧
    (Transaction.submit S nodes rand retry (f + 1) secret tx st).2.cache tx.Account =
      some (resolvedSeq S st tx.Account) := by
  rw [submit_eq]
  have hit := submitIter_fatal S (Transaction.getNode nodes rand) secret retry
    { st with callerTx := tx }
    (by rw [h1]; exact fun hc => Option.noConfusion hc)
    (by rw [h1]; exact fun hc => Option.noConfusion hc)
    (by rw [h1]; exact fun hc => Option.noConfusion hc)
  rw [submitLoop_succ_done (Transaction.getNode nodes rand) secret f hit]
  refine ⟨rfl, ?_, ?_⟩
  · simp only [stAfterSubmit_respIdx]
  · exact stAfterSubmit_cache_account S (Transaction.getNode nodes rand) secret
      { st with callerTx := tx }

/-- A first response accepted with a truthy hash makes submit return at once. -/
theorem submit_success (S : Script) (nodes : List String) (rand : Nat) (retry : Int)
    (f : Nat) (secret : String) (tx : Tx) (st : LoopSt) (h : String)
    (h1 : engineResult (S.responses st.respIdx) = some "tesSUCCESS")
    (h2 : txJsonHash (S.responses st.respIdx) = .ok (some h))
    (h3 : h ≠ "") :
    Transaction.submit S nodes rand retry (f + 1) secret tx st =
      (.ok h, stAfterSubmit S (Transaction.getNode nodes rand) secret
        { st with callerTx := tx }) := by
  rw [submit_eq]
  exact submitLoop_succ_done (Transaction.getNode nodes rand) secret f
    (submitIter_success S (Transaction.getNode nodes rand) secret retry
      { st with callerTx := tx } h1 h2 h3)

/-- Counterexample to claim C1 as stated: an invocation whose node response
has engine_result tesSUCCESS but whose result.tx_json.hash is the empty
string; the empty hash is falsy in JavaScript, so the loop continues past the
accepted response and the call ends in the error of the following response
instead of returning that hash. -/
theorem claim_C1_cex :
    engineResult (emptyThenFatalScript.responses 0) = some "tesSUCCESS" ∧
    txJsonHash (emptyThenFatalScript.responses 0) = .ok (some "") ∧
    (Transaction.createOrder
      { script := emptyThenFatalScript, nodes := ["n1"], rand := 0, retry := 5, fuel := 3,
        currency := "SWT", fee := 10, issuer := "I" }
      "A" "sec" "1" "jjcc" "swt" "7" "buy" "P" none (initSt txA)).1 =
      .err (.node badFeeResp) ∧
    ¬((Transaction.createOrder
      { script := emptyThenFatalScript, nodes := ["n1"], rand := 0, retry := 5, fuel := 3,
        currency := "SWT", fee := 10, issuer := "I" }
      "A" "sec" "1" "jjcc" "swt" "7" "buy" "P" none (initSt txA)).1 = .ok "") := by
  exact ⟨rfl, rfl, by decide, by decide⟩

/-- Claim C1 (amended): when the node response carries engine_result
tesSUCCESS together with a present, nonempty result.tx_json.hash, submit
returns that hash and the facade operation (createOrder, as cited) advances
the cached sequence of the acting account by exactly one via rise: the cache
then holds the resolved sequence of the accepted attempt plus one. -/
theorem claim_C1 (cfg : TxCfg) (address secret amount base counter sum type platform : String)
    (issuer : Option String) (st : LoopSt) (h : String) (f : Nat)
    (hfuel : cfg.fuel = f + 1)
    (h1 : engineResult (cfg.script.responses st.respIdx) = some "tesSUCCESS")
    (h2 : txJsonHash (cfg.script.responses st.respIdx) = .ok (some h))
    (h3 : h ≠ "") :
    (Transaction.createOrder cfg address secret amount base counter sum type platform
      issuer st).1 = .ok h ∧
    (Transaction.createOrder cfg address secret amount base counter sum type platform
      issuer st).2.cache address = some (resolvedSeq cfg.script st address + 1) := by
  have hsub := submit_success cfg.script cfg.nodes cfg.rand cfg.retry f secret
    (serializeCreateOrder address amount base counter sum type platform cfg.currency
      cfg.fee (issuerOrDefault issuer cfg.issuer)) st h h1 h2 h3
  simp only [Transaction.createOrder]
  rw [hfuel, hsub]
  refine ⟨rfl, ?_⟩
  show (seqRise address (stAfterSubmit cfg.script (Transaction.getNode cfg.nodes cfg.rand)
    secret { st with callerTx := (serializeCreateOrder address amount base counter sum type
      platform cfg.currency cfg.fee (issuerOrDefault issuer cfg.issuer)) })).cache address =
    some (resolvedSeq cfg.script st address + 1)
  rw [seqRise_cache_self]
  have hacc : (stAfterSubmit cfg.script (Transaction.getNode cfg.nodes cfg.rand) secret
      { st with callerTx := (serializeCreateOrder address amount base counter sum type
        platform cfg.currency cfg.fee (issuerOrDefault issuer cfg.issuer)) }).cache address =
      some (resolvedSeq cfg.script st address) :=
    stAfterSubmit_cache_account cfg.script (Transaction.getNode cfg.nodes cfg.rand) secret
      { st with callerTx := (serializeCreateOrder address amount base counter sum type
        platform cfg.currency cfg.fee (issuerOrDefault issuer cfg.issuer)) }
  rw [hacc]
  rfl

/-- Witness for the amended C1 on an all-success script. -/
theorem claim_C1_witness :
    ((3 : Nat) = 2 + 1 ∧
      engineResult (allSuccessScript.responses (initSt txA).respIdx) = some "tesSUCCESS" ∧
      txJsonHash (allSuccessScript.responses (initSt txA).respIdx) = .ok (some "ABCD") ∧
      "ABCD" ≠ "") ∧
    ((Transaction.createOrder
        { script := allSuccessScript, nodes := ["n1"], rand := 0, retry := 0, fuel := 3,
          currency := "SWT", fee := 10, issuer := "I" }
        "A" "sec" "1" "jjcc" "swt" "7" "buy" "P" none (initSt txA)).1 = .ok "ABCD" ∧
      (Transaction.createOrder
        { script := allSuccessScript, nodes := ["n1"], rand := 0, retry := 0, fuel := 3,
          currency := "SWT", fee := 10, issuer := "I" }
        "A" "sec" "1" "jjcc" "swt" "7" "buy" "P" none (initSt txA)).2.cache "A" =
        some (resolvedSeq allSuccessScript (initSt txA) "A" + 1)) :=
  ⟨⟨rfl, rfl, rfl, by decide⟩,
    claim_C1
      { script := allSuccessScript, nodes := ["n1"], rand := 0, retry := 0, fuel := 3,
        currency := "SWT", fee := 10, issuer := "I" }
      "A" "sec" "1" "jjcc" "swt" "7" "buy" "P" none (initSt txA) "ABCD" 2
      rfl rfl rfl (by decide)⟩

/-- Counterexample to claim C6 as stated: a stream of accepted responses whose
hash is the empty string (falsy in JavaScript) makes the loop keep submitting
without consuming the retry budget: with budget 0 it has already performed 3
submission attempts, exceeding retryBudget + 1 = 1, and is still running. -/
theorem claim_C6_cex :
    (Transaction.submit emptyHashScript ["n1"] 0 0 3 "sec" txA (initSt txA)).2.respIdx = 3 ∧
    ¬((Transaction.submit emptyHashScript ["n1"] 0 0 3 "sec" txA (initSt txA)).2.respIdx ≤ 0 + 1) ∧
    (Transaction.submit emptyHashScript ["n1"] 0 0 3 "sec" txA (initSt txA)).1 = .fuelOut := by
  exact ⟨by decide, by decide, by decide⟩

/-- Claim C6 (amended): provided every accepted response in the stream either
carries a truthy hash or is malformed enough to raise, submit terminates
within retry.toNat + 1 submission attempts and ends in exactly one of the two
outcomes, a hash or a raised error. -/
theorem claim_C6 (S : Script) (nodes : List String) (rand : Nat) (retry : Int)
    (fuel : Nat) (secret : String) (tx : Tx) (st : LoopSt)
    (Hgood : ∀ i, goodResp (S.responses i) = true)
    (hfuel : retry.toNat + 1 ≤ fuel) :
    (Transaction.submit S nodes rand retry fuel secret tx st).1 ≠ .fuelOut ∧
    ((∃ h, (Transaction.submit S nodes rand retry fuel secret tx st).1 = .ok h) ∨
      (∃ e, (Transaction.submit S nodes rand retry fuel secret tx st).1 = .err e)) ∧
    (Transaction.submit S nodes rand retry fuel secret tx st).2.respIdx ≤
      st.respIdx + retry.toNat + 1 := by
  rw [submit_eq]
  have hb := good_bound S (Transaction.getNode nodes rand) secret Hgood fuel retry
    { st with callerTx := tx } hfuel
  refine ⟨hb.1, ?_, hb.2⟩
  cases hox : (submitLoop S (Transaction.getNode nodes rand) secret fuel retry
      { st with callerTx := tx }).1 with
  | ok h => exact Or.inl ⟨h, rfl⟩
  | err e => exact Or.inr ⟨e, rfl⟩
  | fuelOut => exact absurd hox hb.1

/-- Witness for the amended C6 on an all-success script with budget 2. -/
theorem claim_C6_witness :
    ((∀ i, goodResp (allSuccessScript.responses i) = true) ∧ (2 : Int).toNat + 1 ≤ 5) ∧
    ((Transaction.submit allSuccessScript ["n1"] 0 2 5 "sec" txA (initSt txA)).1 ≠ .fuelOut ∧
      ((∃ h, (Transaction.submit allSuccessScript ["n1"] 0 2 5 "sec" txA (initSt txA)).1 = .ok h) ∨
        (∃ e, (Transaction.submit allSuccessScript ["n1"] 0 2 5 "sec" txA (initSt txA)).1 = .err e)) ∧
      (Transaction.submit allSuccessScript ["n1"] 0 2 5 "sec" txA (initSt txA)).2.respIdx ≤
        (initSt txA).respIdx + (2 : Int).toNat + 1) :=
  ⟨⟨fun _ => (by decide : goodResp (successResp "ABCD") = true), by decide⟩,
    claim_C6 allSuccessScript ["n1"] 0 2 5 "sec" txA (initSt txA)
      (fun _ => (by decide : goodResp (successResp "ABCD") = true)) (by decide)⟩

/-- Claim C5: a sequence-conflict response always clears the cached sequence
of the account before raising or before the next iteration resolves; hence
with responses terPRE_SEQ then tesSUCCESS and budget at least one, submit
succeeds after two resolver invocations and two fresh fetches; and after any
facade failure the cache of the acting account is empty, so the next resolve
actually fetches from the node. -/
theorem claim_C5 :
    (∀ (S : Script) (node secret : String) (retry : Int) (f : Nat) (st : LoopSt),
      (engineResult (S.responses st.respIdx) = some "terPRE_SEQ" ∨
        engineResult (S.responses st.respIdx) = some "tefPAST_SEQ") →
      retry - 1 < 0 →
      (submitLoop S node secret (f + 1) retry st).1 =
        .err (.node (S.responses st.respIdx)) ∧
      (submitLoop S node secret (f + 1) retry st).2.cache st.callerTx.Account = none) ∧
    (∀ (nodes : List String) (rand : Nat) (secret : String) (tx : Tx) (retryB : Int)
        (f : Nat), 1 ≤ retryB →
      (Transaction.submit preThenSuccessScript nodes rand retryB (f + 2) secret tx
        (initSt tx)).1 = .ok "ABCD" ∧
      (Transaction.submit preThenSuccessScript nodes rand retryB (f + 2) secret tx
        (initSt tx)).2.getCount = 2 ∧
      (Transaction.submit preThenSuccessScript nodes rand retryB (f + 2) secret tx
        (initSt tx)).2.fetchIdx = 2) ∧
    (∀ (cfg : TxCfg) (address secret amount base counter sum type platform : String)
        (issuer : Option String) (st : LoopSt) (e : SubmitErr),
      (Transaction.createOrder cfg address secret amount base counter sum type platform
        issuer st).1 = .err e →
      (Transaction.createOrder cfg address secret amount base counter sum type platform
        issuer st).2.cache address = none) ∧
    (∀ (S : Script) (a node : String) (st : LoopSt), st.cache a = none →
      (seqGet S a node st).2.fetchIdx = st.fetchIdx + 1 ∧
      (seqGet S a node st).1 = S.fetchVals st.fetchIdx) := by
  refine ⟨?_, ?_, ?_, ?_⟩
  · intro S node secret retry f st hr hneg
    have hit := submitIter_retryable S node secret retry st hr
    rw [if_pos hneg] at hit
    rw [submitLoop_succ_done node secret f hit]
    exact ⟨rfl, seqReset_cache_self st.callerTx.Account
      (stAfterSubmit S node secret st)⟩
  · intro nodes rand secret tx retryB f hB
    rw [submit_eq]
    have hi1 : submitIter preThenSuccessScript (Transaction.getNode nodes rand) secret
        retryB { initSt tx with callerTx := tx } =
        .loop (retryB - 1)
          (seqReset ({ initSt tx with callerTx := tx }).callerTx.Account
            (stAfterSubmit preThenSuccessScript (Transaction.getNode nodes rand) secret
              { initSt tx with callerTx := tx })) := by
      have hit := submitIter_retryable preThenSuccessScript
        (Transaction.getNode nodes rand) secret retryB
        { initSt tx with callerTx := tx } (Or.inl rfl)
      rw [if_neg (by omega)] at hit
      exact hit
    rw [submitLoop_succ_loop (Transaction.getNode nodes rand) secret (f + 1) hi1]
    have hresp3 : (seqReset ({ initSt tx with callerTx := tx }).callerTx.Account
        (stAfterSubmit preThenSuccessScript (Transaction.getNode nodes rand) secret
          { initSt tx with callerTx := tx })).respIdx = 1 := by
      simp only [seqReset_respIdx, stAfterSubmit_respIdx]
      rfl
    have hi2 : submitIter preThenSuccessScript (Transaction.getNode nodes rand) secret
        (retryB - 1)
        (seqReset ({ initSt tx with callerTx := tx }).callerTx.Account
          (stAfterSubmit preThenSuccessScript (Transaction.getNode nodes rand) secret
            { initSt tx with callerTx := tx })) =
        .done (.ok "ABCD")
          (stAfterSubmit preThenSuccessScript (Transaction.getNode nodes rand) secret
            (seqReset ({ initSt tx with callerTx := tx }).callerTx.Account
              (stAfterSubmit preThenSuccessScript (Transaction.getNode nodes rand) secret
                { initSt tx with callerTx := tx }))) := by
      apply submitIter_success
      · rw [hresp3]
        rfl
      · rw [hresp3]
        rfl
      · decide
    rw [submitLoop_succ_done (Transaction.getNode nodes rand) secret f hi2]
    refine ⟨rfl, ?_, ?_⟩
    · simp only [stAfterSubmit_getCount, seqReset_getCount]
      rfl
    · have hc3 : (seqReset ({ initSt tx with callerTx := tx }).callerTx.Account
          (stAfterSubmit preThenSuccessScript (Transaction.getNode nodes rand) secret
            { initSt tx with callerTx := tx })).cache
          (seqReset ({ initSt tx with callerTx := tx }).callerTx.Account
            (stAfterSubmit preThenSuccessScript (Transaction.getNode nodes rand) secret
              { initSt tx with callerTx := tx })).callerTx.Account = none :=
        seqReset_cache_self _ _
      rw [stAfterSubmit_fetchIdx_miss (Transaction.getNode nodes rand) secret hc3]
      rw [seqReset_fetchIdx]
      rw [stAfterSubmit_fetchIdx_miss (Transaction.getNode nodes rand) secret rfl]
      rfl
  · intro cfg address secret amount base counter sum type platform issuer st e
    simp only [Transaction.createOrder]
    cases hsub : Transaction.submit cfg.script cfg.nodes cfg.rand cfg.retry cfg.fuel secret
      (serializeCreateOrder address amount base counter sum type platform cfg.currency
        cfg.fee (issuerOrDefault issuer cfg.issuer)) st with
    | mk o st1 =>
      cases o with
      | ok h => intro hcontra; exact absurd hcontra (by simp)
      | err e2 =>
        intro _
        exact seqReset_cache_self address st1
      | fuelOut => intro hcontra; exact absurd hcontra (by simp)
  · intro S a node st hc
    rw [seqGet_miss S node hc]
    exact ⟨rfl, rfl⟩

/-- Witness for C5 instantiating all four parts on concrete runs. -/
theorem claim_C5_witness :
    (((0 : Int) - 1 < 0 ∧
      (submitLoop allPastSeqScript "n1" "sec" (0 + 1) 0 (initSt txA)).1 =
        .err (.node (allPastSeqScript.responses (initSt txA).respIdx)) ∧
      (submitLoop allPastSeqScript "n1" "sec" (0 + 1) 0 (initSt txA)).2.cache
        (initSt txA).callerTx.Account = none)) ∧
    (((1 : Int) ≤ 1 ∧
      (Transaction.submit preThenSuccessScript ["n1"] 0 1 (0 + 2) "sec" txA
        (initSt txA)).1 = .ok "ABCD" ∧
      (Transaction.submit preThenSuccessScript ["n1"] 0 1 (0 + 2) "sec" txA
        (initSt txA)).2.getCount = 2 ∧
      (Transaction.submit preThenSuccessScript ["n1"] 0 1 (0 + 2) "sec" txA
        (initSt txA)).2.fetchIdx = 2)) ∧
    ((Transaction.createOrder
        { script := allBadFeeScript, nodes := ["n1"], rand := 0, retry := 0, fuel := 1,
          currency := "SWT", fee := 10, issuer := "I" }
        "A" "sec" "1" "jjcc" "swt" "7" "buy" "P" none (initSt txA)).1 =
          .err (.node badFeeResp) ∧
      (Transaction.createOrder
        { script := allBadFeeScript, nodes := ["n1"], rand := 0, retry := 0, fuel := 1,
          currency := "SWT", fee := 10, issuer := "I" }
        "A" "sec" "1" "jjcc" "swt" "7" "buy" "P" none (initSt txA)).2.cache "A" = none) ∧
    ((initSt txA).cache "A" = none ∧
      (seqGet nullRespScript "A" "n1" (initSt txA)).2.fetchIdx = (initSt txA).fetchIdx + 1 ∧
      (seqGet nullRespScript "A" "n1" (initSt txA)).1 =
        nullRespScript.fetchVals (initSt txA).fetchIdx) :=
  ⟨⟨by decide,
      claim_C5.1 allPastSeqScript "n1" "sec" 0 0 (initSt txA) (Or.inr rfl) (by decide)⟩,
    ⟨by decide, claim_C5.2.1 ["n1"] 0 "sec" txA 1 0 (by decide)⟩,
    ⟨by decide,
      claim_C5.2.2.1
        { script := allBadFeeScript, nodes := ["n1"], rand := 0, retry := 0, fuel := 1,
          currency := "SWT", fee := 10, issuer := "I" }
        "A" "sec" "1" "jjcc" "swt" "7" "buy" "P" none (initSt txA) (.node badFeeResp)
        (by decide)⟩,
    ⟨rfl, claim_C5.2.2.2 nullRespScript "A" "n1" (initSt txA) rfl⟩⟩

/-- Claim C8: submit never mutates the caller transaction object (its state
cell is unchanged by the whole loop), and every submitted blob is the
signature, produced within the same iteration, of a fresh copy of the caller
transaction stamped with the sequence resolved in that iteration: a signature
for one sequence value is never submitted with another. -/
theorem claim_C8 (S : Script) (nodes : List String) (rand : Nat) (retry : Int)
    (fuel : Nat) (secret : String) (tx : Tx) :
    (Transaction.submit S nodes rand retry fuel secret tx (initSt tx)).2.callerTx = tx ∧
    signedLogOk (Transaction.getNode nodes rand) secret tx
      (Transaction.submit S nodes rand retry fuel secret tx (initSt tx)).2 := by
  rw [submit_eq]
  constructor
  · exact submitLoop_callerTx S (Transaction.getNode nodes rand) secret fuel retry
      { initSt tx with callerTx := tx }
  · have h0 : signedLogOk (Transaction.getNode nodes rand) secret
        ({ initSt tx with callerTx := tx }).callerTx { initSt tx with callerTx := tx } := by
      refine ⟨rfl, ?_⟩
      intro i hi
      exact absurd hi (Nat.not_lt_zero i)
    exact submitLoop_signedLogOk S (Transaction.getNode nodes rand) secret fuel retry
      { initSt tx with callerTx := tx } h0

/-- Witness for C8 on a one-iteration successful run: the final caller object
equals the original, and the single submitted blob signs the copy stamped
with the logged sequence. -/
theorem claim_C8_witness :
    (Transaction.submit allSuccessScript ["n1"] 0 0 1 "sec" txA (initSt txA)).2.callerTx =
      txA ∧
    (Transaction.submit allSuccessScript ["n1"] 0 0 1 "sec" txA (initSt txA)).2.subLog.getD
      0 ("", txDefault) =
      (Transaction.getNode ["n1"] 0,
        (Wallet.sign
          { txA with Sequence := (some
            ((Transaction.submit allSuccessScript ["n1"] 0 0 1 "sec" txA
              (initSt txA)).2.seqLog.getD 0 0)) } "sec").blob) :=
  ⟨(claim_C8 allSuccessScript ["n1"] 0 0 1 "sec" txA).1,
    (claim_C8 allSuccessScript ["n1"] 0 0 1 "sec" txA).2.2 0 (by decide)⟩

/-- Claim C9: the target node is chosen once, before the loop; every sequence
fetch and every blob submission of the invocation is recorded against that
same node. -/
theorem claim_C9 (S : Script) (nodes : List String) (rand : Nat) (retry : Int)
    (fuel : Nat) (secret : String) (tx : Tx) :
    nodeLogOk (Transaction.getNode nodes rand)
      (Transaction.submit S nodes rand retry fuel secret tx (initSt tx)).2 := by
  rw [submit_eq]
  apply submitLoop_nodeLogOk
  constructor
  · intro e he
    exact absurd he (List.not_mem_nil e)
  · intro e he
    exact absurd he (List.not_mem_nil e)

/-- Witness for C9: on a retrying run the recorded fetch went to the chosen
node. -/
theorem claim_C9_witness :
    ("n1", "A") ∈
      (Transaction.submit preThenSuccessScript ["n1"] 0 1 2 "sec" txA (initSt txA)).2.fetchLog ∧
    ("n1", "A").1 = Transaction.getNode ["n1"] 0 :=
  ⟨by decide,
    (claim_C9 preThenSuccessScript ["n1"] 0 1 2 "sec" txA).1 ("n1", "A") (by decide)⟩

/-- Claim C7: every public facade operation is exactly the generic
try/advance-or-clear shape applied to its acting account and its built
transaction (for setBrokerage the acting account is the platform account);
and that shape, on a resolving submit, rises the acting account and returns
the hash, while on a rejecting submit it resets the acting account and
re-raises the same error unchanged. -/
theorem claim_C7 (cfg : TxCfg) (st : LoopSt)
    (address secret amount base counter sum type platform : String)
    (issuer : Option String) (offerSequence : Nat) (memo dest token : String)
    (platformAccount platformSecret feeAccount : String) (rateNum rateDen : Nat)
    (blAcct issuerStr : String) (signerQuorum : Nat) (signerEntries : Option String)
    (disable : Bool) (account receiver tokenId publisher : String) (amountN flag : Nat)
    (memoOpt tokenInfos : Option String) :
    Transaction.createOrder cfg address secret amount base counter sum type platform
        issuer st =
      withSeqBookkeeping address
        (Transaction.submit cfg.script cfg.nodes cfg.rand cfg.retry cfg.fuel secret
          (serializeCreateOrder address amount base counter sum type platform
            cfg.currency cfg.fee (issuerOrDefault issuer cfg.issuer))) st ∧
    Transaction.cancelOrder cfg address secret offerSequence st =
      withSeqBookkeeping address
        (Transaction.submit cfg.script cfg.nodes cfg.rand cfg.retry cfg.fuel secret
          (serializeCancelOrder address offerSequence cfg.fee)) st ∧
    Transaction.transfer cfg address secret amount memo dest token issuer st =
      withSeqBookkeeping address
        (Transaction.submit cfg.script cfg.nodes cfg.rand cfg.retry cfg.fuel secret
          (serializePayment address amount dest token memo cfg.fee cfg.currency
            (issuerOrDefault issuer cfg.issuer))) st ∧
    Transaction.setBrokerage cfg platformAccount platformSecret feeAccount rateNum
        rateDen token issuer st =
      withSeqBookkeeping platformAccount
        (Transaction.submit cfg.script cfg.nodes cfg.rand cfg.retry cfg.fuel
          platformSecret
          (serializeBrokerage platformAccount feeAccount rateNum rateDen token
            (issuerOrDefault issuer cfg.issuer) cfg.fee)) st ∧
    Transaction.addBlackList cfg address secret blAcct memo st =
      withSeqBookkeeping address
        (Transaction.submit cfg.script cfg.nodes cfg.rand cfg.retry cfg.fuel secret
          (serializeSetBlackList address blAcct memo cfg.fee)) st ∧
    Transaction.removeBlackList cfg address secret blAcct memo st =
      withSeqBookkeeping address
        (Transaction.submit cfg.script cfg.nodes cfg.rand cfg.retry cfg.fuel secret
          (serializeRemoveBlackList address blAcct memo cfg.fee)) st ∧
    Transaction.setManageIssuer cfg address secret blAcct memo st =
      withSeqBookkeeping address
        (Transaction.submit cfg.script cfg.nodes cfg.rand cfg.retry cfg.fuel secret
          (serializeManageIssuer address blAcct memo cfg.fee)) st ∧
    Transaction.issueSet cfg address secret amount memo token issuerStr st =
      withSeqBookkeeping address
        (Transaction.submit cfg.script cfg.nodes cfg.rand cfg.retry cfg.fuel secret
          (serializeIssueSet address amount token memo issuerStr cfg.fee)) st ∧
    Transaction.setSignerList cfg address secret signerQuorum signerEntries st =
      withSeqBookkeeping address
        (Transaction.submit cfg.script cfg.nodes cfg.rand cfg.retry cfg.fuel secret
          (serializeSignerList address signerQuorum cfg.fee signerEntries)) st ∧
    Transaction.setAccount cfg address secret disable st =
      withSeqBookkeeping address
        (Transaction.submit cfg.script cfg.nodes cfg.rand cfg.retry cfg.fuel secret
          (serializeSetAccount address disable cfg.fee)) st ∧
    Transaction.transfer721 cfg account secret receiver tokenId memoOpt st =
      withSeqBookkeeping account
        (Transaction.submit cfg.script cfg.nodes cfg.rand cfg.retry cfg.fuel secret
          (serialize721Payment account receiver tokenId cfg.fee memoOpt)) st ∧
    Transaction.delete721 cfg account secret tokenId st =
      withSeqBookkeeping account
        (Transaction.submit cfg.script cfg.nodes cfg.rand cfg.retry cfg.fuel secret
          (serialize721Delete account tokenId cfg.fee)) st ∧
    Transaction.setTokenIssue cfg account secret publisher amountN token flag st =
      withSeqBookkeeping account
        (Transaction.submit cfg.script cfg.nodes cfg.rand cfg.retry cfg.fuel secret
          (serializeTokenIssue account publisher amountN token flag cfg.fee)) st ∧
    Transaction.publish721 cfg account secret receiver token tokenId tokenInfos st =
      withSeqBookkeeping account
        (Transaction.submit cfg.script cfg.nodes cfg.rand cfg.retry cfg.fuel secret
          (serialize721Publish account receiver token tokenId cfg.fee tokenInfos)) st ∧
    (∀ (a : String) (run : LoopSt → SubmitOutcome × LoopSt) (h : String) (st1 : LoopSt),
      run st = (.ok h, st1) →
      withSeqBookkeeping a run st = (.ok h, seqRise a st1)) ∧
    (∀ (a : String) (run : LoopSt → SubmitOutcome × LoopSt) (e : SubmitErr) (st1 : LoopSt),
      run st = (.err e, st1) →
      withSeqBookkeeping a run st = (.err e, seqReset a st1)) := by
  refine ⟨rfl, rfl, rfl, rfl, rfl, rfl, rfl, rfl, rfl, rfl, rfl, rfl, rfl, rfl, ?_, ?_⟩
  · intro a run h st1 hr
    simp [withSeqBookkeeping, hr]
  · intro a run e st1 hr
    simp [withSeqBookkeeping, hr]

/-- Witness for C7: the generic shape rises on resolve and resets (re-raising
the same error) on reject at a concrete state and account. -/
theorem claim_C7_witness :
    ((fun s : LoopSt => ((SubmitOutcome.ok "H"), s)) (initSt txA) =
        (.ok "H", initSt txA) ∧
      withSeqBookkeeping "A" (fun s : LoopSt => ((SubmitOutcome.ok "H"), s)) (initSt txA) =
        (.ok "H", seqRise "A" (initSt txA))) ∧
    ((fun s : LoopSt => ((SubmitOutcome.err (.node none)), s)) (initSt txA) =
        (.err (.node none), initSt txA) ∧
      withSeqBookkeeping "A" (fun s : LoopSt => ((SubmitOutcome.err (.node none)), s))
          (initSt txA) =
        (.err (.node none), seqReset "A" (initSt txA))) :=
  ⟨⟨rfl,
      (claim_C7
        { script := allSuccessScript, nodes := ["n1"], rand := 0, retry := 0, fuel := 1,
          currency := "SWT", fee := 10, issuer := "I" }
        (initSt txA) "A" "sec" "1" "b" "c" "7" "buy" "P" none 1 "m" "D" "T"
        "PA" "PS" "FA" 1 2 "BL" "IS" 1 none false "AC" "R" "TID" "PU" 3 4 none
        none).2.2.2.2.2.2.2.2.2.2.2.2.2.2.1
        "A" (fun s : LoopSt => ((SubmitOutcome.ok "H"), s)) "H" (initSt txA) rfl⟩,
    ⟨rfl,
      (claim_C7
        { script := allSuccessScript, nodes := ["n1"], rand := 0, retry := 0, fuel := 1,
          currency := "SWT", fee := 10, issuer := "I" }
        (initSt txA) "A" "sec" "1" "b" "c" "7" "buy" "P" none 1 "m" "D" "T"
        "PA" "PS" "FA" 1 2 "BL" "IS" 1 none false "AC" "R" "TID" "PU" 3 4 none
        none).2.2.2.2.2.2.2.2.2.2.2.2.2.2.2
        "A" (fun s : LoopSt => ((SubmitOutcome.err (.node none)), s)) (.node none)
        (initSt txA) rfl⟩⟩

/-- Witness for C10: a null response stream. -/
theorem claim_C10_witness :
    engineResult (nullRespScript.responses (initSt txA).respIdx) = none ∧
    ((Transaction.submit nullRespScript ["n1"] 0 7 (0 + 1) "sec" txA (initSt txA)).1 =
        .err (.node (nullRespScript.responses (initSt txA).respIdx)) ∧
      (Transaction.submit nullRespScript ["n1"] 0 7 (0 + 1) "sec" txA (initSt txA)).2.respIdx =
        (initSt txA).respIdx + 1 ∧
      (Transaction.submit nullRespScript ["n1"] 0 7 (0 + 1) "sec" txA (initSt txA)).2.cache txA.Account =
        some (resolvedSeq nullRespScript (initSt txA) txA.Account)) :=
  ⟨rfl, claim_C10 nullRespScript ["n1"] 0 7 0 "sec" txA (initSt txA) rfl⟩

end JccJingtum
